import Mathlib

/-!
Shallow embedding of bionic libc thread creation
(libc/bionic/pthread_create.cpp).

size_t arithmetic is modelled as natural numbers reduced modulo 2 ^ W,
where W is the platform word width. Fallible system calls (mmap, mprotect,
clone, sched_getscheduler, sched_getparam, sched_setscheduler) and the
arc4random_uniform randomness are supplied by explicit oracle environments.
Memory-management effects are recorded as an event trace so that the set of
live mappings left behind by a call can be computed. The errno cell is
threaded explicitly; ErrnoRestorer is modelled by restoring the saved value
on every return path of pthreadCreate.
-/

namespace Bionic

/-- Platform configuration: word width of size_t, whether the build is
LP64, the page size, and the sizes that pthread_create.cpp reads from
elsewhere in the process (sizeof of the bookkeeping structure, the static
TLS layout size, and PTHREAD_GUARD_SIZE). -/
structure Config where
  W : Nat
  lp64 : Bool
  pageSize : Nat
  pthreadInternalSize : Nat
  tlsLayoutSize : Nat
  pthreadGuardSize : Nat
deriving Repr, DecidableEq

/-- The size_t modulus 2 ^ W. -/
def Config.M (cfg : Config) : Nat := 2 ^ cfg.W

/-- Modelled from the spec: well-formedness of the platform constants that
live outside this translation unit (PAGE_SIZE, sizeof of the bookkeeping
structure from pthread_internal.h, PTHREAD_GUARD_SIZE, the static TLS
layout). The spec requires all region sizes to be page multiples and the
page size to be a power of two; the smallness bound keeps the control-block
page count representable. -/
structure ConfigWF (cfg : Config) : Prop where
  page_pos : 0 < cfg.pageSize
  page_dvd_M : cfg.pageSize ∣ cfg.M
  guard_page : cfg.pageSize ∣ cfg.pthreadGuardSize
  internal_pos : 0 < cfg.pthreadInternalSize
  internal_small : cfg.pthreadInternalSize + cfg.pageSize ≤ cfg.M
  tls_page : cfg.pageSize ∣ cfg.tlsLayoutSize

/-- The C macro __BIONIC_ALIGN(x, a): round x up to a multiple of a, computed in
size_t so the result wraps modulo 2 ^ W. For a power-of-two a dividing
2 ^ W this arithmetic form equals the C bitmask ((x + a - 1) & ~(a - 1)). -/
def bionicAlign (cfg : Config) (x a : Nat) : Nat :=
  ((x + a - 1) / a * a) % cfg.M

/-- The C macro __BIONIC_ALIGN_DOWN(x, a). -/
def bionicAlignDown (x a : Nat) : Nat := x / a * a

/-- The checked addition __builtin_add_overflow on size_t: none when the sum would not fit. -/
def addOv (cfg : Config) (a b : Nat) : Option Nat :=
  if a + b < cfg.M then some (a + b) else none

/-- The maximum random gap above the stack: stack_size / 2 on LP64,
stack_size / 10 on 32-bit (pthread_create.cpp lines 226-230). -/
def maxGapSize (cfg : Config) (stack_size : Nat) : Nat :=
  if cfg.lp64 then stack_size / 2 else stack_size / 10

/-- arc4random_uniform takes a uint32_t bound, so a size_t argument is
truncated modulo 2 ^ 32 at the call. -/
def arcBound (n : Nat) : Nat := n % 2 ^ 32

/-- Validity of an arc4random_uniform(bound) oracle value: a uniform value
below the bound, and 0 when the bound is below 2 (OpenBSD behaviour). -/
def ArcValid (bound r : Nat) : Prop :=
  if 2 ≤ bound then r < bound else r = 0

instance (bound r : Nat) : Decidable (ArcValid bound r) := by
  unfold ArcValid; infer_instance

/-- The random gap size: the arc4random_uniform result rounded up to a
page multiple (pthread_create.cpp line 232). r is the oracle value. -/
def gapSize (cfg : Config) (r : Nat) : Nat :=
  bionicAlign cfg r cfg.pageSize

/-- The control block page count in bytes:
__BIONIC_ALIGN(sizeof(pthread_internal_t), PAGE_SIZE). -/
def threadPageSize (cfg : Config) : Nat :=
  bionicAlign cfg cfg.pthreadInternalSize cfg.pageSize

/-- The overflow-checked total mapping size of __allocate_thread_mapping
(lines 235-245): stack_size + stack_guard_size + gap + control-block pages
+ static TLS size + tail guard, each addition checked, then the result
aligned up to a page with a wrap check. none means some step overflowed. -/
def mmapSizeOf (cfg : Config) (gap stack_size stack_guard_size : Nat) : Option Nat :=
  (addOv cfg stack_size stack_guard_size).bind fun m1 =>
  (addOv cfg m1 gap).bind fun m2 =>
  (addOv cfg m2 (threadPageSize cfg)).bind fun m3 =>
  (addOv cfg m3 cfg.tlsLayoutSize).bind fun m4 =>
  (addOv cfg m4 cfg.pthreadGuardSize).bind fun m5 =>
  let aligned := bionicAlign cfg m5 cfg.pageSize
  if aligned < m5 then none else some aligned

/-- ThreadMapping: the descriptor returned by __allocate_thread_mapping.
mmap_base = none models the zero-initialised (nullptr) descriptor that the
failure paths return. -/
structure ThreadMapping where
  mmap_base : Option Nat
  mmap_size : Nat
  static_tls : Nat
  stack_base : Nat
  stack_top : Nat
deriving Repr, DecidableEq

/-- The zero-initialised ThreadMapping (the C `return \x7b\x7d`). -/
def emptyTM : ThreadMapping :=
  { mmap_base := none, mmap_size := 0, static_tls := 0, stack_base := 0, stack_top := 0 }

/-- Oracle environment for one __allocate_thread_mapping call: the two
arc4random_uniform draws, the mmap outcome (none = MAP_FAILED, some base
address otherwise) and the outcomes of the two mprotect calls, with the
errno value each failure would set. -/
structure MapEnv where
  gapRand : Nat
  stackTopRand : Nat
  mmapResult : Option Nat
  mmapErrno : Nat
  mprotectStackOk : Bool
  mprotectStackErrno : Nat
  mprotectTlsOk : Bool
  mprotectTlsErrno : Nat
deriving Repr, DecidableEq

/-- Memory-management events emitted by the allocator and by
pthread_create. -/
inductive Ev where
  | mmapCall (res : Option Nat) (size : Nat)
  | munmapCall (base size : Nat)
  | mprotectCall (base size : Nat) (ok : Bool)
deriving Repr, DecidableEq

/-- One step of live-mapping accounting. -/
def liveStep (m : List (Nat × Nat)) : Ev → List (Nat × Nat)
  | .mmapCall (some b) s => m ++ [(b, s)]
  | .munmapCall b s => m.erase (b, s)
  | _ => m

/-- The mappings still live after a trace of events. -/
def live (evs : List Ev) : List (Nat × Nat) :=
  evs.foldl liveStep []

/-- Model of __allocate_thread_mapping (lines 219-294). Returns the descriptor, the
event trace and the errno cell after the call (errno is set by a failing
mmap or mprotect and left alone otherwise; prctl naming calls are not
modelled). -/
def allocateThreadMapping (cfg : Config) (env : MapEnv)
    (stack_size stack_guard_size errno : Nat) :
    ThreadMapping × List Ev × Nat :=
  let gap := gapSize cfg env.gapRand
  match mmapSizeOf cfg gap stack_size stack_guard_size with
  | none => (emptyTM, [], errno)
  | some mmap_size =>
    match env.mmapResult with
    | none => (emptyTM, [Ev.mmapCall none mmap_size], env.mmapErrno)
    | some space =>
      if env.mprotectStackOk then
        let thread := space + stack_guard_size + stack_size + gap
        if env.mprotectTlsOk then
          let result : ThreadMapping :=
            { mmap_base := some space
              mmap_size := mmap_size
              static_tls := thread + threadPageSize cfg
              stack_base := space
              stack_top :=
                bionicAlignDown
                  (space + stack_guard_size + stack_size - env.stackTopRand) 16 }
          (result,
           [Ev.mmapCall (some space) mmap_size,
            Ev.mprotectCall (space + stack_guard_size) stack_size true,
            Ev.mprotectCall thread (threadPageSize cfg + cfg.tlsLayoutSize) true],
           errno)
        else
          (emptyTM,
           [Ev.mmapCall (some space) mmap_size,
            Ev.mprotectCall (space + stack_guard_size) stack_size true,
            Ev.mprotectCall thread (threadPageSize cfg + cfg.tlsLayoutSize) false,
            Ev.munmapCall space mmap_size],
           env.mprotectTlsErrno)
      else
        (emptyTM,
         [Ev.mmapCall (some space) mmap_size,
          Ev.mprotectCall (space + stack_guard_size) stack_size false,
          Ev.munmapCall space mmap_size],
         env.mprotectStackErrno)

/-- Modelled from the spec: the detached-vs-joinable attribute flag bit
(pthread_internal.h is outside src). Only bit distinctness matters. -/
def PTHREAD_ATTR_FLAG_DETACHED : Nat := 1

/-- Modelled from the spec: the inherit-scheduling attribute flag bit. -/
def PTHREAD_ATTR_FLAG_INHERIT : Nat := 4

/-- Modelled from the spec: the explicit-scheduling attribute flag bit. -/
def PTHREAD_ATTR_FLAG_EXPLICIT : Nat := 8

/-- Bit test on an attribute flag word. -/
def hasFlag (flags bit : Nat) : Bool := flags &&& bit != 0

/-- SCHED_NORMAL (Linux scheduling policy 0). -/
def SCHED_NORMAL : Nat := 0

/-- SCHED_RESET_ON_FORK is bit 30 (0x40000000) of the policy word. -/
def SCHED_RESET_ON_FORK_BIT : Nat := 30

/-- The EAGAIN errno value. -/
def EAGAIN : Nat := 11

/-- The attribute fields of pthread_attr_t consumed by this code.
stack_base = none models a null stack_base (no caller-provided stack). -/
structure PthreadAttr where
  flags : Nat
  stack_base : Option Nat
  stack_size : Nat
  guard_size : Nat
  sched_policy : Nat
  sched_priority : Int
deriving Repr, DecidableEq

/-- The outputs of a successful __allocate_thread call: the updated
attribute record stored into the bookkeeping structure, the child stack
pointer handed to clone, and the mapping base/size recorded in the
bookkeeping structure for later release. -/
structure AllocOk where
  attr : PthreadAttr
  childStack : Nat
  mmapBase : Nat
  mmapSize : Nat
deriving Repr, DecidableEq

/-- Model of __allocate_thread (lines 296-350). On the default path the guard size
is page-aligned with a wrap check, then the mapping is allocated for
(stack_size, aligned guard); on the caller-provided-stack path the mapping
is allocated for (0, PTHREAD_GUARD_SIZE) and the child stack is the caller
buffer base plus its size. Returns the result, the event trace, and the
errno cell after the call. -/
def allocateThread (cfg : Config) (env : MapEnv) (attr : PthreadAttr)
    (errno : Nat) : Except Nat AllocOk × List Ev × Nat :=
  match attr.stack_base with
  | none =>
    let g := bionicAlign cfg attr.guard_size cfg.pageSize
    if g < attr.guard_size then (Except.error EAGAIN, [], errno)
    else
      match allocateThreadMapping cfg env attr.stack_size g errno with
      | (m, tr, e1) =>
        match m.mmap_base with
        | none => (Except.error EAGAIN, tr, e1)
        | some base =>
          let stack_top := m.stack_top
          let attr1 := { attr with
            guard_size := g
            stack_base := some m.stack_base
            stack_size := stack_top - m.stack_base }
          (Except.ok { attr := attr1, childStack := stack_top,
                       mmapBase := base, mmapSize := m.mmap_size }, tr, e1)
  | some b =>
    match allocateThreadMapping cfg env 0 cfg.pthreadGuardSize errno with
    | (m, tr, e1) =>
      match m.mmap_base with
      | none => (Except.error EAGAIN, tr, e1)
      | some base =>
        let stack_top := b + attr.stack_size
        let attr1 := { attr with stack_size := stack_top - b }
        (Except.ok { attr := attr1, childStack := stack_top,
                     mmapBase := base, mmapSize := m.mmap_size }, tr, e1)

/-- Oracle environment for the scheduling calls made by __init_thread.
getschedResult = none models sched_getscheduler(0) returning -1 with the
given errno; otherwise it is the (non-negative) policy word. -/
structure SchedEnv where
  getschedResult : Option Nat
  getschedErrno : Nat
  getparamOk : Bool
  getparamErrno : Nat
  getparamPriority : Int
  setschedOk : Bool
  setschedErrno : Nat
deriving Repr, DecidableEq

/-- Modelled from the spec: the two join states __init_thread can install
(THREAD_NOT_JOINED / THREAD_DETACHED from pthread_internal.h, outside
src). -/
inductive JoinState where
  | notJoined
  | detached
deriving Repr, DecidableEq

/-- The observable outcome of __init_thread: its return value, the join
state installed in the bookkeeping structure, whether sched_setscheduler
was called, and the errno cell after the call. -/
structure InitOut where
  ret : Nat
  joinState : JoinState
  setschedCalled : Bool
  errno : Nat
deriving Repr, DecidableEq

/-- The shared tail of __init_thread (lines 198-210): call
sched_setscheduler; on failure return errno on LP64 builds but warn and
return 0 on 32-bit builds. -/
def setschedStep (cfg : Config) (env : SchedEnv) (js : JoinState)
    (errno : Nat) : InitOut :=
  if env.setschedOk then
    { ret := 0, joinState := js, setschedCalled := true, errno := errno }
  else if cfg.lp64 then
    { ret := env.setschedErrno, joinState := js, setschedCalled := true,
      errno := env.setschedErrno }
  else
    { ret := 0, joinState := js, setschedCalled := true,
      errno := env.setschedErrno }

/-- Model of __init_thread (lines 160-211). Installs the join state from the
detached flag, then decides whether to call sched_setscheduler: on the
inherit path the current policy is re-read and need_set is true exactly
when it carries SCHED_RESET_ON_FORK (a failed query returns -1, whose two
complement representation has that bit set, so need_set is true and the
failure is then detected and returned); otherwise the attribute policy is
used, with the pre-P compatibility rule forcing need_set unless the
attribute policy is SCHED_NORMAL when neither inherit nor explicit was
requested. -/
def initThread (cfg : Config) (env : SchedEnv) (attr : PthreadAttr)
    (errno : Nat) : InitOut :=
  let js : JoinState :=
    if hasFlag attr.flags PTHREAD_ATTR_FLAG_DETACHED then .detached
    else .notJoined
  if hasFlag attr.flags PTHREAD_ATTR_FLAG_INHERIT then
    match env.getschedResult with
    | none =>
      { ret := env.getschedErrno, joinState := js, setschedCalled := false,
        errno := env.getschedErrno }
    | some policy =>
      if policy.testBit SCHED_RESET_ON_FORK_BIT then
        if env.getparamOk then
          setschedStep cfg env js errno
        else
          { ret := env.getparamErrno, joinState := js,
            setschedCalled := false, errno := env.getparamErrno }
      else
        { ret := 0, joinState := js, setschedCalled := false, errno := errno }
  else
    let need_set :=
      if !hasFlag attr.flags PTHREAD_ATTR_FLAG_EXPLICIT then
        attr.sched_policy != SCHED_NORMAL
      else true
    if need_set then setschedStep cfg env js errno
    else { ret := 0, joinState := js, setschedCalled := false, errno := errno }

/-- Oracle environment for one pthread_create call. cloneResult is the
clone(2) outcome: an errno on failure, a tid on success. -/
structure CreateEnv where
  map : MapEnv
  sched : SchedEnv
  cloneResult : Except Nat Nat
deriving Repr

/-- The start routine stored in the bookkeeping structure: the caller
supplied entry point or the __do_nothing no-op. -/
inductive StartR where
  | user
  | doNothing
deriving Repr, DecidableEq

/-- The observable outcome of pthread_create: the returned error code,
whether a handle was written to thread_out, the start routine and join
state held by the bookkeeping structure (none when no thread record
remains), whether the thread was registered in the external registry,
whether the handshake gate was released, whether clone succeeded, whether
sched_setscheduler was called, the memory event trace, the errno value
just before ErrnoRestorer fires, and the caller-visible errno after the
call. -/
structure CreateOut where
  ret : Nat
  handleProduced : Bool
  startRoutine : Option StartR
  joinState : Option JoinState
  registered : Bool
  gateReleased : Bool
  spawned : Bool
  setschedCalled : Bool
  trace : List Ev
  errnoBeforeRestore : Nat
  errnoOut : Nat
deriving Repr, DecidableEq

/-- pthread_create (lines 381-458). ErrnoRestorer saves errno0 on entry
and rewrites errno to it on every return path. After a successful clone, a
failing __init_thread marks the bookkeeping structure detached, registers
the thread, swaps the start routine for __do_nothing, unlocks the gate and
returns the initialization error; otherwise the handle is published and
the gate unlocked. A failed clone unlocks the gate, unmaps the mapping
(when its size is nonzero) and returns the clone errno. -/
def pthreadCreate (cfg : Config) (env : CreateEnv) (attr : PthreadAttr)
    (errno0 : Nat) : CreateOut :=
  match allocateThread cfg env.map attr errno0 with
  | (Except.error e, tr, e1) =>
    { ret := e, handleProduced := false, startRoutine := none,
      joinState := none, registered := false, gateReleased := false,
      spawned := false, setschedCalled := false, trace := tr,
      errnoBeforeRestore := e1, errnoOut := errno0 }
  | (Except.ok a, tr, e1) =>
    match env.cloneResult with
    | Except.error ce =>
      { ret := ce, handleProduced := false, startRoutine := some .user,
        joinState := none, registered := false, gateReleased := true,
        spawned := false, setschedCalled := false,
        trace := tr ++ (if a.mmapSize != 0
                        then [Ev.munmapCall a.mmapBase a.mmapSize] else []),
        errnoBeforeRestore := ce, errnoOut := errno0 }
    | Except.ok _tid =>
      let init := initThread cfg env.sched a.attr e1
      if init.ret != 0 then
        { ret := init.ret, handleProduced := false,
          startRoutine := some .doNothing, joinState := some .detached,
          registered := true, gateReleased := true, spawned := true,
          setschedCalled := init.setschedCalled, trace := tr,
          errnoBeforeRestore := init.errno, errnoOut := errno0 }
      else
        { ret := 0, handleProduced := true, startRoutine := some .user,
          joinState := some init.joinState, registered := true,
          gateReleased := true, spawned := true,
          setschedCalled := init.setschedCalled, trace := tr,
          errnoBeforeRestore := init.errno, errnoOut := errno0 }

/-! Helper lemmas about the size arithmetic. -/

theorem M_pos (cfg : Config) : 0 < cfg.M :=
  Nat.pos_pow_of_pos cfg.W (by norm_num)

theorem le_alignUpMul (a x : Nat) (ha : 0 < a) : x ≤ (x + a - 1) / a * a := by
  have h := Nat.div_add_mod (x + a - 1) a
  have hr : (x + a - 1) % a < a := Nat.mod_lt _ ha
  rw [Nat.mul_comm]
  omega

theorem alignUpMul_le_self (a x : Nat) : (x + a - 1) / a * a ≤ x + a - 1 :=
  Nat.div_mul_le_self _ _

theorem alignUpMul_mono (a x y : Nat) (h : x ≤ y) :
    (x + a - 1) / a * a ≤ (y + a - 1) / a * a :=
  Nat.mul_le_mul_right a (Nat.div_le_div_right (by omega))

theorem bionicAlign_le_alignUpMul (cfg : Config) (x a : Nat) :
    bionicAlign cfg x a ≤ (x + a - 1) / a * a :=
  Nat.mod_le _ _

theorem bionicAlign_dvd (cfg : Config) (x a : Nat) (hM : a ∣ cfg.M) :
    a ∣ bionicAlign cfg x a := by
  unfold bionicAlign
  exact (Nat.dvd_mod_iff hM).mpr (dvd_mul_left a ((x + a - 1) / a))

theorem bionicAlign_eq_self (cfg : Config) (x a : Nat) (ha : 0 < a)
    (hdvd : a ∣ x) (hx : x < cfg.M) : bionicAlign cfg x a = x := by
  obtain ⟨k, rfl⟩ := hdvd
  unfold bionicAlign
  have h1 : (a * k + a - 1) / a = k := by
    have : a * k + a - 1 = a - 1 + a * k := by omega
    rw [this, Nat.add_mul_div_left _ _ ha, Nat.div_eq_of_lt (by omega)]
    omega
  rw [h1, Nat.mul_comm, Nat.mod_eq_of_lt hx]

theorem bionicAlign_eq_of_small (cfg : Config) (x a : Nat) (ha : 0 < a)
    (hsmall : x + a ≤ cfg.M) :
    bionicAlign cfg x a = (x + a - 1) / a * a := by
  unfold bionicAlign
  exact Nat.mod_eq_of_lt (lt_of_le_of_lt (alignUpMul_le_self a x) (by omega))

theorem threadPageSize_eq (cfg : Config) (wf : ConfigWF cfg) :
    threadPageSize cfg =
      (cfg.pthreadInternalSize + cfg.pageSize - 1) / cfg.pageSize * cfg.pageSize :=
  bionicAlign_eq_of_small cfg _ _ wf.page_pos wf.internal_small

theorem threadPageSize_pos (cfg : Config) (wf : ConfigWF cfg) :
    0 < threadPageSize cfg := by
  rw [threadPageSize_eq cfg wf]
  exact lt_of_lt_of_le wf.internal_pos
    (le_alignUpMul cfg.pageSize cfg.pthreadInternalSize wf.page_pos)

theorem threadPageSize_dvd (cfg : Config) (wf : ConfigWF cfg) :
    cfg.pageSize ∣ threadPageSize cfg :=
  bionicAlign_dvd cfg _ _ wf.page_dvd_M

theorem gapSize_dvd (cfg : Config) (wf : ConfigWF cfg) (r : Nat) :
    cfg.pageSize ∣ gapSize cfg r :=
  bionicAlign_dvd cfg _ _ wf.page_dvd_M

/-- Characterization of a successful overflow-checked size computation:
the result is the page-aligned grand total, every partial sum fits, and
the aligned result is at least the unaligned total. -/
theorem mmapSizeOf_some (cfg : Config) (gap ss gs sz : Nat)
    (h : mmapSizeOf cfg gap ss gs = some sz) :
    ss + gs + gap + threadPageSize cfg + cfg.tlsLayoutSize +
        cfg.pthreadGuardSize < cfg.M ∧
      sz = bionicAlign cfg
        (ss + gs + gap + threadPageSize cfg + cfg.tlsLayoutSize +
          cfg.pthreadGuardSize) cfg.pageSize ∧
      ss + gs + gap + threadPageSize cfg + cfg.tlsLayoutSize +
        cfg.pthreadGuardSize ≤ sz := by
  unfold mmapSizeOf addOv at h
  by_cases h1 : ss + gs < cfg.M
  · simp only [h1, if_true, Option.bind_some, Option.some_bind] at h
    by_cases h2 : ss + gs + gap < cfg.M
    · simp only [h2, if_true, Option.some_bind] at h
      by_cases h3 : ss + gs + gap + threadPageSize cfg < cfg.M
      · simp only [h3, if_true, Option.some_bind] at h
        by_cases h4 : ss + gs + gap + threadPageSize cfg + cfg.tlsLayoutSize < cfg.M
        · simp only [h4, if_true, Option.some_bind] at h
          by_cases h5 : ss + gs + gap + threadPageSize cfg + cfg.tlsLayoutSize +
              cfg.pthreadGuardSize < cfg.M
          · simp only [h5, if_true, Option.some_bind] at h
            by_cases h6 : bionicAlign cfg
                (ss + gs + gap + threadPageSize cfg + cfg.tlsLayoutSize +
                  cfg.pthreadGuardSize) cfg.pageSize <
                ss + gs + gap + threadPageSize cfg + cfg.tlsLayoutSize +
                  cfg.pthreadGuardSize
            · simp only [h6, if_true] at h
              exact absurd h (by simp)
            · simp only [h6, if_false] at h
              refine ⟨h5, ?_, ?_⟩
              · exact (Option.some.injEq _ _ ▸ h).symm
              · have hsz : sz = bionicAlign cfg
                    (ss + gs + gap + threadPageSize cfg + cfg.tlsLayoutSize +
                      cfg.pthreadGuardSize) cfg.pageSize :=
                  (Option.some.injEq _ _ ▸ h).symm
                omega
          · simp only [h5, if_false, Option.none_bind] at h
            exact absurd h (by simp)
        · simp only [h4, if_false, Option.none_bind] at h
          exact absurd h (by simp)
      · simp only [h3, if_false, Option.none_bind] at h
        exact absurd h (by simp)
    · simp only [h2, if_false, Option.none_bind] at h
      exact absurd h (by simp)
  · simp only [h1, if_false, Option.none_bind] at h
    exact absurd h (by simp)

/-- When every region size is a page multiple and the total fits, the
overflow-checked size computation succeeds with the exact (unpadded)
total. -/
theorem mmapSizeOf_of_dvd (cfg : Config) (wf : ConfigWF cfg) (gap ss gs : Nat)
    (hss : cfg.pageSize ∣ ss) (hgs : cfg.pageSize ∣ gs)
    (hgap : cfg.pageSize ∣ gap)
    (hfit : ss + gs + gap + threadPageSize cfg + cfg.tlsLayoutSize +
      cfg.pthreadGuardSize < cfg.M) :
    mmapSizeOf cfg gap ss gs =
      some (ss + gs + gap + threadPageSize cfg + cfg.tlsLayoutSize +
        cfg.pthreadGuardSize) := by
  have hdvd : cfg.pageSize ∣
      ss + gs + gap + threadPageSize cfg + cfg.tlsLayoutSize +
        cfg.pthreadGuardSize := by
    exact Nat.dvd_add (Nat.dvd_add (Nat.dvd_add (Nat.dvd_add (Nat.dvd_add hss hgs)
      hgap) (threadPageSize_dvd cfg wf)) wf.tls_page) wf.guard_page
  have halign := bionicAlign_eq_self cfg _ _ wf.page_pos hdvd hfit
  unfold mmapSizeOf addOv
  rw [if_pos (show ss + gs < cfg.M by omega)]
  simp only [Option.some_bind]
  rw [if_pos (show ss + gs + gap < cfg.M by omega)]
  simp only [Option.some_bind]
  rw [if_pos (show ss + gs + gap + threadPageSize cfg < cfg.M by omega)]
  simp only [Option.some_bind]
  rw [if_pos
    (show ss + gs + gap + threadPageSize cfg + cfg.tlsLayoutSize < cfg.M by omega)]
  simp only [Option.some_bind]
  rw [if_pos hfit]
  simp only [Option.some_bind, halign]
  rw [if_neg (Nat.lt_irrefl _)]

/-- Inversion of a successful __allocate_thread_mapping call: the oracle
outcomes it forces, the layout of the produced descriptor, and the exact
event trace. -/
theorem allocMapping_success (cfg : Config) (env : MapEnv) (ss gs e : Nat)
    (m : ThreadMapping) (tr : List Ev) (e2 : Nat) (base : Nat)
    (h : allocateThreadMapping cfg env ss gs e = (m, tr, e2))
    (hb : m.mmap_base = some base) :
    env.mmapResult = some base ∧ env.mprotectStackOk = true ∧
      env.mprotectTlsOk = true ∧
      mmapSizeOf cfg (gapSize cfg env.gapRand) ss gs = some m.mmap_size ∧
      m.stack_base = base ∧
      m.static_tls = base + gs + ss + gapSize cfg env.gapRand + threadPageSize cfg ∧
      tr = [Ev.mmapCall (some base) m.mmap_size,
        Ev.mprotectCall (base + gs) ss true,
        Ev.mprotectCall (base + gs + ss + gapSize cfg env.gapRand)
          (threadPageSize cfg + cfg.tlsLayoutSize) true] ∧
      e2 = e := by
  simp only [allocateThreadMapping] at h
  cases hms : mmapSizeOf cfg (gapSize cfg env.gapRand) ss gs with
  | none =>
    rw [hms] at h
    simp only [Prod.mk.injEq] at h
    obtain ⟨rfl, rfl, rfl⟩ := h
    simp [emptyTM] at hb
  | some sz =>
    rw [hms] at h
    cases hmr : env.mmapResult with
    | none =>
      rw [hmr] at h
      simp only [Prod.mk.injEq] at h
      obtain ⟨rfl, rfl, rfl⟩ := h
      simp [emptyTM] at hb
    | some space =>
      rw [hmr] at h
      cases hstk : env.mprotectStackOk with
      | false =>
        rw [hstk] at h
        simp only [Bool.false_eq_true, if_false, Prod.mk.injEq] at h
        obtain ⟨rfl, rfl, rfl⟩ := h
        simp [emptyTM] at hb
      | true =>
        rw [hstk] at h
        cases htls : env.mprotectTlsOk with
        | false =>
          rw [htls] at h
          simp only [Bool.false_eq_true, if_true, if_false, Prod.mk.injEq] at h
          obtain ⟨rfl, rfl, rfl⟩ := h
          simp [emptyTM] at hb
        | true =>
          rw [htls] at h
          simp only [if_true, Prod.mk.injEq] at h
          obtain ⟨rfl, rfl, rfl⟩ := h
          simp only [] at hb
          obtain rfl : space = base := by simpa using hb
          exact ⟨rfl, rfl, rfl, rfl, rfl, rfl, rfl, rfl⟩

/-- Any failing __allocate_thread_mapping call returns the empty
descriptor and leaves no live mapping behind. -/
theorem allocMapping_fail (cfg : Config) (env : MapEnv) (ss gs e : Nat)
    (hfail : env.mmapResult = none ∨ env.mprotectStackOk = false ∨
      env.mprotectTlsOk = false) :
    (allocateThreadMapping cfg env ss gs e).1 = emptyTM ∧
      live (allocateThreadMapping cfg env ss gs e).2.1 = [] := by
  cases hms : mmapSizeOf cfg (gapSize cfg env.gapRand) ss gs with
  | none =>
    simp [allocateThreadMapping, hms, live]
  | some sz =>
    cases hmr : env.mmapResult with
    | none =>
      simp [allocateThreadMapping, hms, hmr, live, liveStep]
    | some space =>
      rcases hfail with h | h | h
      · rw [hmr] at h; exact absurd h (by simp)
      · simp [allocateThreadMapping, hms, hmr, h, live, liveStep,
          List.erase_cons_head]
      · cases hstk : env.mprotectStackOk with
        | false =>
          simp [allocateThreadMapping, hms, hmr, hstk, live, liveStep,
            List.erase_cons_head]
        | true =>
          simp [allocateThreadMapping, hms, hmr, hstk, h, live, liveStep,
            List.erase_cons_head]

/-- Inversion of a successful __allocate_thread call: the attribute fields
relevant to scheduling are preserved, and the trace and mapping facts come
from one underlying __allocate_thread_mapping call. -/
theorem allocateThread_ok_inv (cfg : Config) (env : MapEnv)
    (attr : PthreadAttr) (e : Nat) (a : AllocOk) (tr : List Ev) (e1 : Nat)
    (h : allocateThread cfg env attr e = (Except.ok a, tr, e1)) :
    a.attr.flags = attr.flags ∧ a.attr.sched_policy = attr.sched_policy ∧
      ∃ ss gs m, allocateThreadMapping cfg env ss gs e = (m, tr, e1) ∧
        m.mmap_base = some a.mmapBase ∧ a.mmapSize = m.mmap_size := by
  simp only [allocateThread] at h
  cases hsb : attr.stack_base with
  | none =>
    rw [hsb] at h
    by_cases hg : bionicAlign cfg attr.guard_size cfg.pageSize < attr.guard_size
    · simp only [hg, if_true, Prod.mk.injEq] at h
      exact absurd h.1 (by simp)
    · simp only [hg, if_false] at h
      rcases hAM : allocateThreadMapping cfg env attr.stack_size
          (bionicAlign cfg attr.guard_size cfg.pageSize) e with ⟨m, tr2, e2⟩
      rw [hAM] at h
      cases hmb : m.mmap_base with
      | none =>
        rw [hmb] at h
        simp only [Prod.mk.injEq] at h
        exact absurd h.1 (by simp)
      | some base =>
        rw [hmb] at h
        simp only [Prod.mk.injEq, Except.ok.injEq] at h
        obtain ⟨rfl, rfl, rfl⟩ := h
        exact ⟨rfl, rfl, _, _, m, hAM, hmb, rfl⟩
  | some b =>
    rw [hsb] at h
    rcases hAM : allocateThreadMapping cfg env 0 cfg.pthreadGuardSize e
      with ⟨m, tr2, e2⟩
    rw [hAM] at h
    cases hmb : m.mmap_base with
    | none =>
      rw [hmb] at h
      simp only [Prod.mk.injEq] at h
      exact absurd h.1 (by simp)
    | some base =>
      rw [hmb] at h
      simp only [Prod.mk.injEq, Except.ok.injEq] at h
      obtain ⟨rfl, rfl, rfl⟩ := h
      exact ⟨rfl, rfl, _, _, m, hAM, hmb, rfl⟩

/-- A successful __allocate_thread call leaves exactly one live mapping,
of nonzero size, recorded in the result for later release. -/
theorem allocateThread_ok_live (cfg : Config) (env : MapEnv)
    (attr : PthreadAttr) (e : Nat) (a : AllocOk) (tr : List Ev) (e1 : Nat)
    (wf : ConfigWF cfg)
    (h : allocateThread cfg env attr e = (Except.ok a, tr, e1)) :
    live tr = [(a.mmapBase, a.mmapSize)] ∧ 0 < a.mmapSize := by
  obtain ⟨-, -, ss, gs, m, hAM, hmb, hsz⟩ :=
    allocateThread_ok_inv cfg env attr e a tr e1 h
  obtain ⟨-, -, -, hms, -, -, htr, -⟩ :=
    allocMapping_success cfg env ss gs e m tr e1 a.mmapBase hAM hmb
  constructor
  · rw [htr, hsz]
    simp [live, liveStep]
  · obtain ⟨-, -, hle⟩ := mmapSizeOf_some cfg _ _ _ _ hms
    have := threadPageSize_pos cfg wf
    omega

/-! Concrete platform instances and oracle environments used to witness
the theorems on explicit inputs. -/

/-- A 64-bit platform instance: 4 KiB pages, a 1000-byte bookkeeping
structure, an 8 KiB static TLS layout, one guard page. -/
def cfg64 : Config :=
  { W := 64, lp64 := true, pageSize := 4096, pthreadInternalSize := 1000,
    tlsLayoutSize := 8192, pthreadGuardSize := 4096 }

/-- A 32-bit platform instance. -/
def cfg32 : Config :=
  { W := 32, lp64 := false, pageSize := 4096, pthreadInternalSize := 1000,
    tlsLayoutSize := 8192, pthreadGuardSize := 4096 }

theorem cfg64_wf : ConfigWF cfg64 := by
  refine ⟨by norm_num [cfg64], ⟨2 ^ 52, by norm_num [cfg64, Config.M]⟩,
    ⟨1, by norm_num [cfg64]⟩, by norm_num [cfg64],
    by norm_num [cfg64, Config.M], ⟨2, by norm_num [cfg64]⟩⟩

theorem cfg32_wf : ConfigWF cfg32 := by
  refine ⟨by norm_num [cfg32], ⟨2 ^ 20, by norm_num [cfg32, Config.M]⟩,
    ⟨1, by norm_num [cfg32]⟩, by norm_num [cfg32],
    by norm_num [cfg32, Config.M], ⟨2, by norm_num [cfg32]⟩⟩

/-- A memory oracle where every call succeeds: the mapping lands at
address 2 ^ 20 and both random draws are 0. -/
def menvOk : MapEnv :=
  { gapRand := 0, stackTopRand := 0, mmapResult := some 1048576,
    mmapErrno := 12, mprotectStackOk := true, mprotectStackErrno := 13,
    mprotectTlsOk := true, mprotectTlsErrno := 14 }

/-- A memory oracle whose first mprotect (the stack grant) fails. -/
def menvStkFail : MapEnv :=
  { menvOk with mprotectStackOk := false }

/-- A memory oracle whose second mprotect (the TLS grant) fails. -/
def menvTlsFail : MapEnv :=
  { menvOk with mprotectTlsOk := false }

/-- A memory oracle whose mmap fails. -/
def menvMmapFail : MapEnv :=
  { menvOk with mmapResult := none }

/-- A successful memory oracle whose gap draw is 1. -/
def menvGap1 : MapEnv :=
  { menvOk with gapRand := 1 }

/-- A scheduling oracle where every call succeeds with a normal policy. -/
def senvOk : SchedEnv :=
  { getschedResult := some 0, getschedErrno := 5, getparamOk := true,
    getparamErrno := 6, getparamPriority := 0, setschedOk := true,
    setschedErrno := 7 }

/-- A scheduling oracle whose sched_getscheduler call fails (errno 5). -/
def senvQueryFail : SchedEnv :=
  { senvOk with getschedResult := none }

/-- A scheduling oracle whose sched_setscheduler call fails (errno 7). -/
def senvSetFail : SchedEnv :=
  { senvOk with setschedOk := false }

/-- A scheduling oracle whose queried policy carries SCHED_RESET_ON_FORK
and whose calls all succeed. -/
def senvResetOnFork : SchedEnv :=
  { senvOk with getschedResult := some (2 ^ 30) }

/-- Default creation attributes: an 8 KiB stack to be allocated, one guard
page, joinable, no scheduling flags. -/
def attrDefault : PthreadAttr :=
  { flags := 0, stack_base := none, stack_size := 8192, guard_size := 4096,
    sched_policy := 0, sched_priority := 0 }

/-- Attributes requesting inherited scheduling. -/
def attrInherit : PthreadAttr :=
  { attrDefault with flags := PTHREAD_ATTR_FLAG_INHERIT }

/-- Attributes requesting an explicit (non-normal) scheduling policy. -/
def attrExplicit : PthreadAttr :=
  { attrDefault with flags := PTHREAD_ATTR_FLAG_EXPLICIT, sched_policy := 1 }

/-- Attributes supplying a caller-provided stack at address 500000. -/
def attrOwnStack : PthreadAttr :=
  { attrDefault with stack_base := some 500000 }

/-- Attributes whose requested stack size makes the very first additive
step of the size computation overflow a 64-bit size_t. -/
def attrOverflow : PthreadAttr :=
  { attrDefault with stack_size := 2 ^ 64 - 1 }

/-- C2: if any additive step of the total-size computation (or its final
page alignment) would overflow size_t, __allocate_thread_mapping returns
the empty mapping without any mmap call (empty trace, errno untouched),
and pthread_create fails with EAGAIN having performed no reservation. -/
theorem C2_overflow_fails_without_reservation (cfg : Config)
    (env : CreateEnv) (attr : PthreadAttr) (errno0 : Nat)
    (hsb : attr.stack_base = none)
    (hg : ¬ bionicAlign cfg attr.guard_size cfg.pageSize < attr.guard_size)
    (hov : mmapSizeOf cfg (gapSize cfg env.map.gapRand) attr.stack_size
      (bionicAlign cfg attr.guard_size cfg.pageSize) = none) :
    allocateThreadMapping cfg env.map attr.stack_size
        (bionicAlign cfg attr.guard_size cfg.pageSize) errno0 =
      (emptyTM, [], errno0) ∧
      (pthreadCreate cfg env attr errno0).ret = EAGAIN ∧
      (pthreadCreate cfg env attr errno0).trace = [] := by
  have hm : allocateThreadMapping cfg env.map attr.stack_size
      (bionicAlign cfg attr.guard_size cfg.pageSize) errno0 =
      (emptyTM, [], errno0) := by
    simp only [allocateThreadMapping, hov]
  have ha : allocateThread cfg env.map attr errno0 =
      (Except.error EAGAIN, [], errno0) := by
    simp only [allocateThread, hsb]
    rw [if_neg hg, hm]
    simp [emptyTM]
  refine ⟨hm, ?_, ?_⟩ <;> simp [pthreadCreate, ha]

/-- C2 witness: a 64-bit platform whose requested stack size makes the
first additive step overflow. -/
theorem C2_overflow_witness :
    attrOverflow.stack_base = none ∧
      ¬ bionicAlign cfg64 attrOverflow.guard_size cfg64.pageSize <
        attrOverflow.guard_size ∧
      mmapSizeOf cfg64 (gapSize cfg64 menvOk.gapRand) attrOverflow.stack_size
        (bionicAlign cfg64 attrOverflow.guard_size cfg64.pageSize) = none ∧
      (allocateThreadMapping cfg64 menvOk attrOverflow.stack_size
          (bionicAlign cfg64 attrOverflow.guard_size cfg64.pageSize) 77 =
        (emptyTM, [], 77) ∧
        (pthreadCreate cfg64
          { map := menvOk, sched := senvOk, cloneResult := Except.ok 1234 }
          attrOverflow 77).ret = EAGAIN ∧
        (pthreadCreate cfg64
          { map := menvOk, sched := senvOk, cloneResult := Except.ok 1234 }
          attrOverflow 77).trace = []) :=
  ⟨by decide, by decide, by decide,
    C2_overflow_fails_without_reservation cfg64
      { map := menvOk, sched := senvOk, cloneResult := Except.ok 1234 }
      attrOverflow 77 (by decide) (by decide) (by decide)⟩

/-- C3: whenever the initial reservation or either access-grant step of
__allocate_thread_mapping fails, the call returns the empty mapping and
the set of mappings still live after its event trace is empty: nothing is
leaked. -/
theorem C3_failed_alloc_leaves_no_mappings (cfg : Config) (env : MapEnv)
    (ss gs e : Nat)
    (hfail : env.mmapResult = none ∨ env.mprotectStackOk = false ∨
      env.mprotectTlsOk = false) :
    (allocateThreadMapping cfg env ss gs e).1 = emptyTM ∧
      live (allocateThreadMapping cfg env ss gs e).2.1 = [] :=
  allocMapping_fail cfg env ss gs e hfail

/-- C3 witness: the stack access-grant fails; the whole mapping is
released. -/
theorem C3_failed_alloc_witness :
    (menvStkFail.mmapResult = none ∨ menvStkFail.mprotectStackOk = false ∨
      menvStkFail.mprotectTlsOk = false) ∧
      ((allocateThreadMapping cfg64 menvStkFail 8192 4096 77).1 = emptyTM ∧
        live (allocateThreadMapping cfg64 menvStkFail 8192 4096 77).2.1 = []) :=
  ⟨by decide,
    C3_failed_alloc_leaves_no_mappings cfg64 menvStkFail 8192 4096 77
      (by decide)⟩

/-- C6 counterexample: with a one-page stack on a 64-bit platform the
documented bound is half the stack (2048 bytes), but the random draw 1 is
rounded up to a whole page, so the gap of an actual allocation is 4096
bytes and exceeds the bound. -/
theorem C6_gap_bound_counterexample :
    ArcValid (arcBound (maxGapSize cfg64 4096)) 1 ∧
      maxGapSize cfg64 4096 = 2048 ∧
      gapSize cfg64 1 = 4096 ∧
      ¬ gapSize cfg64 1 ≤ maxGapSize cfg64 4096 ∧
      (allocateThreadMapping cfg64 menvGap1 4096 4096 77).1.static_tls =
        1048576 + 4096 + 4096 + 4096 + threadPageSize cfg64 := by
  decide

/-- C6 amended: the pseudo-random gap size never exceeds the documented
fraction of the stack size (one half on 64-bit, one tenth on 32-bit)
rounded up to the next page-size multiple. -/
theorem C6_gap_bound_amended (cfg : Config) (ss r : Nat)
    (hp : 0 < cfg.pageSize)
    (hr : ArcValid (arcBound (maxGapSize cfg ss)) r) :
    gapSize cfg r ≤
      (maxGapSize cfg ss + cfg.pageSize - 1) / cfg.pageSize * cfg.pageSize := by
  unfold ArcValid at hr
  by_cases h2 : 2 ≤ arcBound (maxGapSize cfg ss)
  · rw [if_pos h2] at hr
    have h1 : r ≤ maxGapSize cfg ss :=
      le_trans (Nat.le_of_lt hr) (Nat.mod_le _ _)
    exact le_trans (bionicAlign_le_alignUpMul cfg r cfg.pageSize)
      (alignUpMul_mono cfg.pageSize r (maxGapSize cfg ss) h1)
  · rw [if_neg h2] at hr
    subst hr
    have h0 : gapSize cfg 0 = 0 := by
      unfold gapSize bionicAlign
      have hq : (0 + cfg.pageSize - 1) / cfg.pageSize = 0 :=
        Nat.div_eq_of_lt (by omega)
      rw [hq]
      simp
    rw [h0]
    exact Nat.zero_le _

/-- C6 amended witness: a draw of 1 against bound 2048 yields a gap of
one page, within the page-rounded bound. -/
theorem C6_gap_bound_amended_witness :
    0 < cfg64.pageSize ∧ ArcValid (arcBound (maxGapSize cfg64 4096)) 1 ∧
      gapSize cfg64 1 ≤
        (maxGapSize cfg64 4096 + cfg64.pageSize - 1) / cfg64.pageSize *
          cfg64.pageSize :=
  ⟨by decide, by decide,
    C6_gap_bound_amended cfg64 4096 1 (by decide) (by decide)⟩

/-- C9: with a caller-provided stack the allocator performs exactly the
memory operations of an __allocate_thread_mapping call for zero stack
bytes and the minimum per-thread guard, and on success the child stack
pointer is the caller buffer base plus its size. -/
theorem C9_caller_stack (cfg : Config) (env : MapEnv) (attr : PthreadAttr)
    (e b : Nat) (hsb : attr.stack_base = some b) :
    (allocateThread cfg env attr e).2.1 =
      (allocateThreadMapping cfg env 0 cfg.pthreadGuardSize e).2.1 ∧
      ∀ a, (allocateThread cfg env attr e).1 = Except.ok a →
        a.childStack = b + attr.stack_size := by
  simp only [allocateThread, hsb]
  rcases hAM : allocateThreadMapping cfg env 0 cfg.pthreadGuardSize e
    with ⟨m, tr, e1⟩
  cases hmb : m.mmap_base with
  | none => simp [hmb]
  | some base => simp [hmb]

/-- C9 witness: a caller-provided stack at address 500000 of size 8192
gives a child stack pointer of 508192, and the mapping trace is that of
the zero-stack minimum-guard allocation. -/
theorem C9_caller_stack_witness :
    attrOwnStack.stack_base = some 500000 ∧
      ((allocateThread cfg64 menvOk attrOwnStack 77).2.1 =
        (allocateThreadMapping cfg64 menvOk 0 cfg64.pthreadGuardSize 77).2.1 ∧
        ∀ a, (allocateThread cfg64 menvOk attrOwnStack 77).1 = Except.ok a →
          a.childStack = 500000 + attrOwnStack.stack_size) :=
  ⟨by decide, C9_caller_stack cfg64 menvOk attrOwnStack 77 500000 (by decide)⟩

/-- C10: pthread_create restores the caller-visible errno on every return
path (ErrnoRestorer), so the errno after the call equals its value before
the call; failures are reported only through the returned error code. -/
theorem C10_errno_restored (cfg : Config) (env : CreateEnv)
    (attr : PthreadAttr) (errno0 : Nat) :
    (pthreadCreate cfg env attr errno0).errnoOut = errno0 := by
  unfold pthreadCreate
  split
  · rfl
  · split
    · rfl
    · dsimp only
      split <;> rfl

deriving instance DecidableEq for Except

/-- The descriptor produced by a successful allocation of an 8 KiB stack
with a one-page guard under menvOk. -/
def mOk : ThreadMapping :=
  { mmap_base := some 1048576, mmap_size := 28672, static_tls := 1064960,
    stack_base := 1048576, stack_top := 1060864 }

/-- The event trace of that successful allocation. -/
def trOk : List Ev :=
  [Ev.mmapCall (some 1048576) 28672,
   Ev.mprotectCall 1052672 8192 true,
   Ev.mprotectCall 1060864 12288 true]

/-- The __allocate_thread output for attrDefault under menvOk. -/
def aDefault : AllocOk :=
  { attr := { flags := 0, stack_base := some 1048576, stack_size := 12288,
              guard_size := 4096, sched_policy := 0, sched_priority := 0 },
    childStack := 1060864, mmapBase := 1048576, mmapSize := 28672 }

/-- The __allocate_thread output for attrInherit under menvOk. -/
def aInherit : AllocOk :=
  { aDefault with
    attr := { aDefault.attr with flags := PTHREAD_ATTR_FLAG_INHERIT } }

/-- The __allocate_thread output for attrExplicit under menvOk. -/
def aExplicit : AllocOk :=
  { aDefault with
    attr := { aDefault.attr with flags := PTHREAD_ATTR_FLAG_EXPLICIT,
                                 sched_policy := 1 } }

/-- A creation environment whose post-spawn scheduling query fails. -/
def cenvInitFail : CreateEnv :=
  { map := menvOk, sched := senvQueryFail, cloneResult := Except.ok 1234 }

/-- A creation environment whose queried policy has SCHED_RESET_ON_FORK. -/
def cenvResetOnFork : CreateEnv :=
  { map := menvOk, sched := senvResetOnFork, cloneResult := Except.ok 1234 }

/-- A creation environment whose sched_setscheduler call fails. -/
def cenvSetFail : CreateEnv :=
  { map := menvOk, sched := senvSetFail, cloneResult := Except.ok 1234 }

/-- A creation environment whose clone call fails with errno 12. -/
def cenvCloneFail : CreateEnv :=
  { map := menvOk, sched := senvOk, cloneResult := Except.error 12 }

/-- C5: a successful allocation with page-aligned stack and guard sizes is
laid out low-to-high as [stack guard][stack][random gap][control-block
pages][static TLS][tail guard]: the regions are consecutive (so disjoint),
every region size is a page multiple, the total equals their sum, and
read-write access is granted to exactly the stack region and the
control-block/static-TLS region. -/
theorem C5_mapping_layout (cfg : Config) (env : MapEnv) (ss gs e : Nat)
    (m : ThreadMapping) (tr : List Ev) (e2 base : Nat)
    (wf : ConfigWF cfg) (hss : cfg.pageSize ∣ ss) (hgs : cfg.pageSize ∣ gs)
    (h : allocateThreadMapping cfg env ss gs e = (m, tr, e2))
    (hb : m.mmap_base = some base) :
    m.mmap_size = gs + ss + gapSize cfg env.gapRand + threadPageSize cfg +
        cfg.tlsLayoutSize + cfg.pthreadGuardSize ∧
      cfg.pageSize ∣ gapSize cfg env.gapRand ∧
      cfg.pageSize ∣ threadPageSize cfg ∧
      cfg.pageSize ∣ m.mmap_size ∧
      m.stack_base = base ∧
      m.static_tls =
        base + gs + ss + gapSize cfg env.gapRand + threadPageSize cfg ∧
      tr = [Ev.mmapCall (some base) m.mmap_size,
        Ev.mprotectCall (base + gs) ss true,
        Ev.mprotectCall (base + gs + ss + gapSize cfg env.gapRand)
          (threadPageSize cfg + cfg.tlsLayoutSize) true] := by
  obtain ⟨hmr, hstk, htls, hms, hsb2, hst, htr, he⟩ :=
    allocMapping_success cfg env ss gs e m tr e2 base h hb
  obtain ⟨hlt, hval, hle⟩ := mmapSizeOf_some cfg _ _ _ _ hms
  have hgap : cfg.pageSize ∣ gapSize cfg env.gapRand := gapSize_dvd cfg wf _
  have htp : cfg.pageSize ∣ threadPageSize cfg := threadPageSize_dvd cfg wf
  have hdvd : cfg.pageSize ∣
      ss + gs + gapSize cfg env.gapRand + threadPageSize cfg +
        cfg.tlsLayoutSize + cfg.pthreadGuardSize :=
    Nat.dvd_add (Nat.dvd_add (Nat.dvd_add (Nat.dvd_add (Nat.dvd_add hss hgs)
      hgap) htp) wf.tls_page) wf.guard_page
  have heq : m.mmap_size =
      ss + gs + gapSize cfg env.gapRand + threadPageSize cfg +
        cfg.tlsLayoutSize + cfg.pthreadGuardSize := by
    rw [hval]
    exact bionicAlign_eq_self cfg _ _ wf.page_pos hdvd hlt
  refine ⟨by omega, hgap, htp, ?_, hsb2, hst, htr⟩
  rw [heq]
  exact hdvd

/-- C5 witness: the 8 KiB-stack one-page-guard allocation under menvOk. -/
theorem C5_mapping_layout_witness :
    ConfigWF cfg64 ∧ cfg64.pageSize ∣ 8192 ∧ cfg64.pageSize ∣ 4096 ∧
      allocateThreadMapping cfg64 menvOk 8192 4096 77 = (mOk, trOk, 77) ∧
      mOk.mmap_base = some 1048576 ∧
      (mOk.mmap_size = 4096 + 8192 + gapSize cfg64 menvOk.gapRand +
          threadPageSize cfg64 + cfg64.tlsLayoutSize +
          cfg64.pthreadGuardSize ∧
        cfg64.pageSize ∣ gapSize cfg64 menvOk.gapRand ∧
        cfg64.pageSize ∣ threadPageSize cfg64 ∧
        cfg64.pageSize ∣ mOk.mmap_size ∧
        mOk.stack_base = 1048576 ∧
        mOk.static_tls = 1048576 + 4096 + 8192 +
          gapSize cfg64 menvOk.gapRand + threadPageSize cfg64 ∧
        trOk = [Ev.mmapCall (some 1048576) mOk.mmap_size,
          Ev.mprotectCall (1048576 + 4096) 8192 true,
          Ev.mprotectCall
            (1048576 + 4096 + 8192 + gapSize cfg64 menvOk.gapRand)
            (threadPageSize cfg64 + cfg64.tlsLayoutSize) true]) :=
  ⟨cfg64_wf, ⟨2, rfl⟩, ⟨1, rfl⟩, by decide, by decide,
    C5_mapping_layout cfg64 menvOk 8192 4096 77 mOk trOk 77 1048576
      cfg64_wf ⟨2, rfl⟩ ⟨1, rfl⟩ (by decide) (by decide)⟩

/-- C1: when __init_thread fails after a successful clone, pthread_create
marks the bookkeeping structure detached, swaps the start routine for the
no-op, still registers the thread, releases the handshake gate, and
returns the initialization error; no handle is produced, though a kernel
thread was spawned. -/
theorem C1_init_failure_detach_noop (cfg : Config) (env : CreateEnv)
    (attr : PthreadAttr) (errno0 tid : Nat) (a : AllocOk) (tr : List Ev)
    (e1 : Nat)
    (halloc : allocateThread cfg env.map attr errno0 = (Except.ok a, tr, e1))
    (hclone : env.cloneResult = Except.ok tid)
    (hinit : (initThread cfg env.sched a.attr e1).ret ≠ 0) :
    (pthreadCreate cfg env attr errno0).ret =
        (initThread cfg env.sched a.attr e1).ret ∧
      (pthreadCreate cfg env attr errno0).joinState =
        some JoinState.detached ∧
      (pthreadCreate cfg env attr errno0).startRoutine =
        some StartR.doNothing ∧
      (pthreadCreate cfg env attr errno0).registered = true ∧
      (pthreadCreate cfg env attr errno0).gateReleased = true ∧
      (pthreadCreate cfg env attr errno0).handleProduced = false ∧
      (pthreadCreate cfg env attr errno0).spawned = true := by
  have hcond : ((initThread cfg env.sched a.attr e1).ret != 0) = true := by
    simpa [bne_iff_ne] using hinit
  simp [pthreadCreate, halloc, hclone, hcond]

/-- C1 witness: the post-spawn scheduling query fails (errno 5) after a
successful clone of the inherit-scheduling thread. -/
theorem C1_init_failure_witness :
    allocateThread cfg64 cenvInitFail.map attrInherit 77 =
        (Except.ok aInherit, trOk, 77) ∧
      cenvInitFail.cloneResult = Except.ok 1234 ∧
      (initThread cfg64 cenvInitFail.sched aInherit.attr 77).ret ≠ 0 ∧
      ((pthreadCreate cfg64 cenvInitFail attrInherit 77).ret =
          (initThread cfg64 cenvInitFail.sched aInherit.attr 77).ret ∧
        (pthreadCreate cfg64 cenvInitFail attrInherit 77).joinState =
          some JoinState.detached ∧
        (pthreadCreate cfg64 cenvInitFail attrInherit 77).startRoutine =
          some StartR.doNothing ∧
        (pthreadCreate cfg64 cenvInitFail attrInherit 77).registered = true ∧
        (pthreadCreate cfg64 cenvInitFail attrInherit 77).gateReleased = true ∧
        (pthreadCreate cfg64 cenvInitFail attrInherit 77).handleProduced =
          false ∧
        (pthreadCreate cfg64 cenvInitFail attrInherit 77).spawned = true) :=
  ⟨by decide, by decide, by decide,
    C1_init_failure_detach_noop cfg64 cenvInitFail attrInherit 77 1234
      aInherit trOk 77 (by decide) (by decide) (by decide)⟩

/-- C7: a failed explicit sched_setscheduler call after spawn makes
__init_thread return the underlying errno on LP64 targets but 0 (warn and
ignore) on 32-bit targets, and on the 32-bit branch pthread_create still
succeeds: the thread is registered and published, so neither the thread
nor its mapping is leaked. -/
theorem C7_setsched_failure_asymmetry (cfg : Config) (env : CreateEnv)
    (attr : PthreadAttr) (errno0 tid : Nat) (a : AllocOk) (tr : List Ev)
    (e1 : Nat)
    (hnoinh : hasFlag attr.flags PTHREAD_ATTR_FLAG_INHERIT = false)
    (hexp : hasFlag attr.flags PTHREAD_ATTR_FLAG_EXPLICIT = true)
    (hfail : env.sched.setschedOk = false)
    (halloc : allocateThread cfg env.map attr errno0 = (Except.ok a, tr, e1))
    (hclone : env.cloneResult = Except.ok tid) :
    (initThread cfg env.sched a.attr e1).ret =
        (if cfg.lp64 then env.sched.setschedErrno else 0) ∧
      (cfg.lp64 = false →
        (pthreadCreate cfg env attr errno0).ret = 0 ∧
        (pthreadCreate cfg env attr errno0).handleProduced = true ∧
        (pthreadCreate cfg env attr errno0).registered = true ∧
        (pthreadCreate cfg env attr errno0).gateReleased = true) := by
  obtain ⟨hfl, -, -⟩ :=
    allocateThread_ok_inv cfg env.map attr errno0 a tr e1 halloc
  constructor
  · cases hlp : cfg.lp64 <;>
      simp [initThread, hfl, hnoinh, hexp, setschedStep, hfail, hlp]
  · intro hlp
    have hinit0 : (initThread cfg env.sched a.attr e1).ret = 0 := by
      simp [initThread, hfl, hnoinh, hexp, setschedStep, hfail, hlp]
    have hcond : ((initThread cfg env.sched a.attr e1).ret != 0) = false := by
      simp [hinit0]
    simp [pthreadCreate, halloc, hclone, hcond]

/-- C7 witness: an explicit-policy thread on the 32-bit platform whose
sched_setscheduler call fails; creation still succeeds. -/
theorem C7_setsched_failure_witness :
    hasFlag attrExplicit.flags PTHREAD_ATTR_FLAG_INHERIT = false ∧
      hasFlag attrExplicit.flags PTHREAD_ATTR_FLAG_EXPLICIT = true ∧
      cenvSetFail.sched.setschedOk = false ∧
      allocateThread cfg32 cenvSetFail.map attrExplicit 77 =
        (Except.ok aExplicit, trOk, 77) ∧
      cenvSetFail.cloneResult = Except.ok 1234 ∧
      ((initThread cfg32 cenvSetFail.sched aExplicit.attr 77).ret =
          (if cfg32.lp64 then cenvSetFail.sched.setschedErrno else 0) ∧
        (cfg32.lp64 = false →
          (pthreadCreate cfg32 cenvSetFail attrExplicit 77).ret = 0 ∧
          (pthreadCreate cfg32 cenvSetFail attrExplicit 77).handleProduced =
            true ∧
          (pthreadCreate cfg32 cenvSetFail attrExplicit 77).registered =
            true ∧
          (pthreadCreate cfg32 cenvSetFail attrExplicit 77).gateReleased =
            true)) :=
  ⟨by decide, by decide, by decide, by decide, by decide,
    C7_setsched_failure_asymmetry cfg32 cenvSetFail attrExplicit 77 1234
      aExplicit trOk 77 (by decide) (by decide) (by decide) (by decide)
      (by decide)⟩

/-- C8: when clone itself fails, pthread_create releases the handshake
gate, unmaps the thread mapping (leaving no live mapping), returns the
clone errno, and no kernel thread was spawned. -/
theorem C8_clone_failure_cleanup (cfg : Config) (env : CreateEnv)
    (attr : PthreadAttr) (errno0 ce : Nat) (a : AllocOk) (tr : List Ev)
    (e1 : Nat) (wf : ConfigWF cfg)
    (halloc : allocateThread cfg env.map attr errno0 = (Except.ok a, tr, e1))
    (hclone : env.cloneResult = Except.error ce) :
    (pthreadCreate cfg env attr errno0).ret = ce ∧
      (pthreadCreate cfg env attr errno0).gateReleased = true ∧
      (pthreadCreate cfg env attr errno0).spawned = false ∧
      (pthreadCreate cfg env attr errno0).handleProduced = false ∧
      live (pthreadCreate cfg env attr errno0).trace = [] := by
  obtain ⟨hlive, hpos⟩ :=
    allocateThread_ok_live cfg env.map attr errno0 a tr e1 wf halloc
  have hsz : (a.mmapSize != 0) = true := by
    simp only [bne_iff_ne, ne_eq]
    omega
  refine ⟨?_, ?_, ?_, ?_, ?_⟩ <;>
    simp only [pthreadCreate, halloc, hclone, hsz, if_true]
  unfold live at hlive ⊢
  rw [List.foldl_append, hlive]
  simp [liveStep, List.erase_cons_head]

/-- C8 witness: clone fails with errno 12 after a successful default
allocation; the mapping is released and no thread exists. -/
theorem C8_clone_failure_witness :
    ConfigWF cfg64 ∧
      allocateThread cfg64 cenvCloneFail.map attrDefault 77 =
        (Except.ok aDefault, trOk, 77) ∧
      cenvCloneFail.cloneResult = Except.error 12 ∧
      ((pthreadCreate cfg64 cenvCloneFail attrDefault 77).ret = 12 ∧
        (pthreadCreate cfg64 cenvCloneFail attrDefault 77).gateReleased =
          true ∧
        (pthreadCreate cfg64 cenvCloneFail attrDefault 77).spawned = false ∧
        (pthreadCreate cfg64 cenvCloneFail attrDefault 77).handleProduced =
          false ∧
        live (pthreadCreate cfg64 cenvCloneFail attrDefault 77).trace = []) :=
  ⟨cfg64_wf, by decide, by decide,
    C8_clone_failure_cleanup cfg64 cenvCloneFail attrDefault 77 12 aDefault
      trOk 77 cfg64_wf (by decide) (by decide)⟩

/-- C4 counterexample: with inherited scheduling requested and the policy
query failing, pthread_create does return the query errno, but the kernel
thread has already been spawned (clone runs before __init_thread), so the
failure does not abort creation before any kernel thread is spawned. -/
theorem C4_query_failure_counterexample :
    hasFlag attrInherit.flags PTHREAD_ATTR_FLAG_INHERIT = true ∧
      cenvInitFail.sched.getschedResult = none ∧
      (pthreadCreate cfg64 cenvInitFail attrInherit 77).ret =
        cenvInitFail.sched.getschedErrno ∧
      (pthreadCreate cfg64 cenvInitFail attrInherit 77).spawned = true := by
  decide

/-- C4 amended: with inherited scheduling requested and clone successful,
sched_setscheduler is called if and only if the re-read policy carries
SCHED_RESET_ON_FORK and the priority query succeeds; a failed policy or
priority query makes creation fail with that errno, but this happens after
the kernel thread was spawned and is handled by the detach-and-no-op path
(no handle is produced). -/
theorem C4_inherit_sched_amended (cfg : Config) (env : CreateEnv)
    (attr : PthreadAttr) (errno0 tid : Nat) (a : AllocOk) (tr : List Ev)
    (e1 : Nat)
    (hinh : hasFlag attr.flags PTHREAD_ATTR_FLAG_INHERIT = true)
    (halloc : allocateThread cfg env.map attr errno0 = (Except.ok a, tr, e1))
    (hclone : env.cloneResult = Except.ok tid)
    (hgerr : env.sched.getschedErrno ≠ 0)
    (hperr : env.sched.getparamErrno ≠ 0) :
    ((pthreadCreate cfg env attr errno0).setschedCalled = true ↔
      ∃ p, env.sched.getschedResult = some p ∧
        p.testBit SCHED_RESET_ON_FORK_BIT = true ∧
        env.sched.getparamOk = true) ∧
      (env.sched.getschedResult = none →
        (pthreadCreate cfg env attr errno0).ret =
          env.sched.getschedErrno ∧
        (pthreadCreate cfg env attr errno0).spawned = true ∧
        (pthreadCreate cfg env attr errno0).startRoutine =
          some StartR.doNothing ∧
        (pthreadCreate cfg env attr errno0).handleProduced = false) ∧
      (∀ p, env.sched.getschedResult = some p →
        p.testBit SCHED_RESET_ON_FORK_BIT = true →
        env.sched.getparamOk = false →
        (pthreadCreate cfg env attr errno0).ret =
          env.sched.getparamErrno ∧
        (pthreadCreate cfg env attr errno0).spawned = true) := by
  obtain ⟨hfl, -, -⟩ :=
    allocateThread_ok_inv cfg env.map attr errno0 a tr e1 halloc
  cases hq : env.sched.getschedResult with
  | none =>
    have hret : (initThread cfg env.sched a.attr e1).ret =
        env.sched.getschedErrno := by
      simp [initThread, hfl, hinh, hq]
    have hcall : (initThread cfg env.sched a.attr e1).setschedCalled =
        false := by
      simp [initThread, hfl, hinh, hq]
    have hcond : ((initThread cfg env.sched a.attr e1).ret != 0) = true := by
      rw [hret]
      simpa [bne_iff_ne] using hgerr
    refine ⟨?_, ?_, ?_⟩
    · simp [pthreadCreate, halloc, hclone, hcond, hcall]
    · intro _
      simp [pthreadCreate, halloc, hclone, hcond, hret, hgerr]
    · intro p2 hp2
      exact absurd hp2 (by simp)
  | some p =>
    cases hbit : p.testBit SCHED_RESET_ON_FORK_BIT with
    | false =>
      have hret : (initThread cfg env.sched a.attr e1).ret = 0 := by
        simp [initThread, hfl, hinh, hq, hbit]
      have hcall : (initThread cfg env.sched a.attr e1).setschedCalled =
          false := by
        simp [initThread, hfl, hinh, hq, hbit]
      have hcond : ((initThread cfg env.sched a.attr e1).ret != 0) =
          false := by
        simp [hret]
      refine ⟨?_, ?_, ?_⟩
      · simp [pthreadCreate, halloc, hclone, hcond, hcall, hbit]
      · intro h
        exact absurd h (by simp)
      · intro p2 hp2 hb2 hpo2
        obtain rfl : p = p2 := Option.some.inj hp2
        simp [hbit] at hb2
    | true =>
      cases hpo : env.sched.getparamOk with
      | false =>
        have hret : (initThread cfg env.sched a.attr e1).ret =
            env.sched.getparamErrno := by
          simp [initThread, hfl, hinh, hq, hbit, hpo]
        have hcall : (initThread cfg env.sched a.attr e1).setschedCalled =
            false := by
          simp [initThread, hfl, hinh, hq, hbit, hpo]
        have hcond : ((initThread cfg env.sched a.attr e1).ret != 0) =
            true := by
          rw [hret]
          simpa [bne_iff_ne] using hperr
        refine ⟨?_, ?_, ?_⟩
        · simp [pthreadCreate, halloc, hclone, hcond, hcall]
        · intro h
          exact absurd h (by simp)
        · intro p2 hp2 hb2 _
          obtain rfl : p = p2 := Option.some.inj hp2
          simp [pthreadCreate, halloc, hclone, hcond, hret, hperr]
      | true =>
        have hcall : (initThread cfg env.sched a.attr e1).setschedCalled =
            true := by
          cases hso : env.sched.setschedOk <;> cases hlp : cfg.lp64 <;>
            simp [initThread, hfl, hinh, hq, hbit, hpo, setschedStep, hso,
              hlp]
        have houtcall : (pthreadCreate cfg env attr errno0).setschedCalled =
            (initThread cfg env.sched a.attr e1).setschedCalled := by
          simp only [pthreadCreate, halloc, hclone]
          split <;> rfl
        refine ⟨?_, ?_, ?_⟩
        · rw [houtcall, hcall]
          simp [hbit]
        · intro h
          exact absurd h (by simp)
        · intro p2 hp2 hb2 hpo2
          exact absurd hpo2 (by simp)

/-- C4 amended witness: the queried policy carries SCHED_RESET_ON_FORK and
both queries succeed, so the explicit sched_setscheduler call is made. -/
theorem C4_inherit_sched_amended_witness :
    hasFlag attrInherit.flags PTHREAD_ATTR_FLAG_INHERIT = true ∧
      allocateThread cfg64 cenvResetOnFork.map attrInherit 77 =
        (Except.ok aInherit, trOk, 77) ∧
      cenvResetOnFork.cloneResult = Except.ok 1234 ∧
      cenvResetOnFork.sched.getschedErrno ≠ 0 ∧
      cenvResetOnFork.sched.getparamErrno ≠ 0 ∧
      (((pthreadCreate cfg64 cenvResetOnFork attrInherit 77).setschedCalled =
          true ↔
        ∃ p, cenvResetOnFork.sched.getschedResult = some p ∧
          p.testBit SCHED_RESET_ON_FORK_BIT = true ∧
          cenvResetOnFork.sched.getparamOk = true) ∧
        (cenvResetOnFork.sched.getschedResult = none →
          (pthreadCreate cfg64 cenvResetOnFork attrInherit 77).ret =
            cenvResetOnFork.sched.getschedErrno ∧
          (pthreadCreate cfg64 cenvResetOnFork attrInherit 77).spawned =
            true ∧
          (pthreadCreate cfg64 cenvResetOnFork attrInherit 77).startRoutine =
            some StartR.doNothing ∧
          (pthreadCreate cfg64 cenvResetOnFork attrInherit 77).handleProduced =
            false) ∧
        (∀ p, cenvResetOnFork.sched.getschedResult = some p →
          p.testBit SCHED_RESET_ON_FORK_BIT = true →
          cenvResetOnFork.sched.getparamOk = false →
          (pthreadCreate cfg64 cenvResetOnFork attrInherit 77).ret =
            cenvResetOnFork.sched.getparamErrno ∧
          (pthreadCreate cfg64 cenvResetOnFork attrInherit 77).spawned =
            true)) :=
  ⟨by decide, by decide, by decide, by decide, by decide,
    C4_inherit_sched_amended cfg64 cenvResetOnFork attrInherit 77 1234
      aInherit trOk 77 (by decide) (by decide) (by decide) (by decide)
      (by decide)⟩

end Bionic
